import Mathlib

/-!
Verification development for the ColorME2 flow layer.

The repository defines five Genkit flows (clothing-item analysis, outfit
suggestion, outfit inspiration, outfit visualization, seasonal color
analysis).  This file gives a shallow embedding of the flow bodies:
model calls are represented by explicit outcome sequences, the retry loops
by structural recursion on the remaining attempt budget, and each run
returns a trace (final result, number of model invocations, backoff delays
slept, and whether the post-loop fallback throw was reached).
-/

set_option autoImplicit false

namespace ColorME2

/-! ### String primitives mirroring the JavaScript operations used -/

/-- Boolean prefix test on character lists (pattern first). -/
def charsPre : List Char → List Char → Bool
  | [], _ => true
  | _ :: _, [] => false
  | a :: as, b :: bs => if a = b then charsPre as bs else false

/-- Boolean substring test on character lists, mirroring JS `includes`. -/
def charsContain : List Char → List Char → Bool
  | [], pat => charsPre pat []
  | c :: t, pat => charsPre pat (c :: t) || charsContain t pat

/-- JS `haystack.includes(pattern)`. -/
def strIncludes (s pat : String) : Bool := charsContain s.data pat.data

/-- JS `s.startsWith(pattern)`. -/
def jsStartsWith (s pat : String) : Bool := charsPre pat.data s.data

/-- JS `s.toLowerCase()` (ASCII-compatible, per character). -/
def jsToLower (s : String) : String := String.mk (s.data.map Char.toLower)

/-! ### Model-call outcomes and run traces -/

/-- Outcome of one awaited model invocation: the promise either resolves
(with a possibly-absent structured output / media url) or rejects with an
error message. -/
inductive CallOutcome (α : Type) where
  | success : Option α → CallOutcome α
  | failure : String → CallOutcome α
  deriving DecidableEq

/-- Errors caught by the retry loops: a Zod validation error (a list of
(field path, message) issues) is distinguished from a plain JS `Error`,
exactly as `error instanceof ZodError` does in the source. -/
inductive FlowError where
  | zodError : List (String × String) → FlowError
  | jsError : String → FlowError
  deriving DecidableEq

deriving instance DecidableEq for Except

/-- Trace of one retry-flow invocation: final result, how many times the
model operation was invoked, the backoff delays slept in order, and whether
the throw placed after the retry loop was executed. -/
structure RunResult (α : Type) where
  result : Except String α
  calls : Nat
  delays : List Nat
  fellThrough : Bool
  deriving DecidableEq

/-- `maxRetries = 3` in both retry-enabled flows. -/
def maxRetries : Nat := 3

/-- `let delay = 2000` in both retry-enabled flows. -/
def initialDelay : Nat := 2000

/-- `String(error.message || 'Onbekende fout opgetreden')`. -/
def effectiveMessage (msg : String) : String :=
  if msg.isEmpty then "Onbekende fout opgetreden" else msg

/-- The retryable-keyword classifier shared verbatim by the clothing and
color flows: lowercase the message and test the seven fixed substrings. -/
def isRetryableMessage (msg : String) : Bool :=
  let m := jsToLower (effectiveMessage msg)
  strIncludes m "503" ||
  strIncludes m "service unavailable" ||
  strIncludes m "model is overloaded" ||
  strIncludes m "model_is_overloaded" ||
  strIncludes m "resource has been exhausted" ||
  strIncludes m "rate limit" ||
  strIncludes m "try again"

/-- JS `array.join(sep)`. -/
def joinSep (sep : String) : List String → String
  | [] => ""
  | [s] => s
  | s :: rest => s ++ sep ++ joinSep sep (rest)

/-! ### Color-analysis data model (perform-color-analysis-flow) -/

/-- `ColorInfoSchema`: a color name plus a hex code. -/
structure ColorInfo where
  name : String
  hex : String
  deriving DecidableEq

/-- The nested `characteristics` object of `PerformColorAnalysisOutputSchema`. -/
structure Characteristics where
  skinTone : String
  hairColor : String
  eyeColor : String
  deriving DecidableEq

/-- `PerformColorAnalysisOutputSchema` as a record. -/
structure PerformColorAnalysisOutput where
  seasonType : String
  analysisDescription : String
  characteristics : Characteristics
  recommendedColors : List ColorInfo
  avoidColors : List ColorInfo
  paletteDescription : String
  deriving DecidableEq

/-- The regex `^#[0-9A-F]{6}$/i` of `ColorInfoSchema.hex`. -/
def isHexDigitChar (c : Char) : Bool :=
  (decide ('0' ≤ c) && decide (c ≤ '9')) ||
  (decide ('A' ≤ c) && decide (c ≤ 'F')) ||
  (decide ('a' ≤ c) && decide (c ≤ 'f'))

/-- Whether a string matches the hex-color regex `^#[0-9A-F]{6}$` (case-insensitive). -/
def matchesHexColor (s : String) : Bool :=
  match s.data with
  | '#' :: rest => rest.length == 6 && rest.all isHexDigitChar
  | _ => false

/-- Zod issues produced for one `ColorInfo` at the given path: only the hex
regex can fail (both fields are plain strings). -/
def validateColorInfo (path : String) (c : ColorInfo) : List (String × String) :=
  if matchesHexColor c.hex then []
  else [(path ++ ".hex", "Moet een geldige hex-kleurcode zijn (bijv. #FF5733).")]

/-- Zod issues for an array of `ColorInfo` under the given field name. -/
def validateColorArray (field : String) (l : List ColorInfo) : List (String × String) :=
  (l.enum.map (fun ic => validateColorInfo (field ++ "." ++ toString ic.1) ic.2)).flatten

/-- Zod validation of `PerformColorAnalysisOutputSchema` on a well-typed value:
every field is a plain string except the two color arrays, whose entries carry
the hex regex.  Note the schema imposes NO minimum length on either array. -/
def validatePerformColorAnalysisOutput (r : PerformColorAnalysisOutput) : List (String × String) :=
  validateColorArray "recommendedColors" r.recommendedColors ++
  validateColorArray "avoidColors" r.avoidColors

/-- `unanalyzableSeasonKeywords` from the flow body. -/
def unanalyzableSeasonKeywords : List String :=
  ["niet te bepalen", "onvoldoende informatie", "kan niet analyseren",
   "geen gezicht", "onmogelijk te bepalen"]

/-- `output.seasonType && keywords.some(k => output.seasonType.toLowerCase().includes(k.toLowerCase()))`. -/
def isUnanalyzable (output : PerformColorAnalysisOutput) : Bool :=
  !output.seasonType.isEmpty &&
  unanalyzableSeasonKeywords.any
    (fun keyword => strIncludes (jsToLower output.seasonType) (jsToLower keyword))

/-- `keywords.some(k => s.toLowerCase().includes(k.toLowerCase()))` applied to
the analysis description. -/
def descriptionHasKeyword (s : String) : Bool :=
  unanalyzableSeasonKeywords.any (fun keyword => strIncludes (jsToLower s) (jsToLower keyword))

/-- Fallback `analysisDescription` installed by the normalizer. -/
def fallbackAnalysisDescription : String :=
  "De AI kon geen betrouwbare kleuranalyse uitvoeren op basis van de verstrekte afbeelding. Zorg voor een duidelijke foto van het gezicht bij goed daglicht, zonder zware make-up en met een neutrale achtergrond."

/-- The sentinel characteristics triple installed by the normalizer. -/
def sentinelCharacteristics : Characteristics :=
  { skinTone := "Niet te bepalen", hairColor := "Niet te bepalen", eyeColor := "Niet te bepalen" }

/-- Fallback `paletteDescription` installed by the normalizer. -/
def fallbackPaletteDescription : String :=
  "Niet te bepalen omdat het seizoen niet vastgesteld kon worden."

/-- The post-processing block of `performColorAnalysisFlow` ("Post-processing
to ensure consistency if analysis is not possible").  Mirrors the source
mutation-by-mutation: the color lists are always emptied, the description /
characteristics / palette are each replaced only under the source's guard
(in particular the characteristics guard looks only at `skinTone`). -/
def normalizeColorOutput (output : PerformColorAnalysisOutput) : PerformColorAnalysisOutput :=
  if isUnanalyzable output then
    let output := { output with recommendedColors := [], avoidColors := [] }
    let output :=
      if output.analysisDescription.isEmpty || !descriptionHasKeyword output.analysisDescription then
        { output with analysisDescription := fallbackAnalysisDescription }
      else output
    let output :=
      if !strIncludes (jsToLower output.characteristics.skinTone) "niet te bepalen" then
        { output with characteristics := sentinelCharacteristics }
      else output
    let output :=
      if output.paletteDescription.isEmpty || !strIncludes (jsToLower output.paletteDescription) "niet te bepalen" then
        { output with paletteDescription := fallbackPaletteDescription }
      else output
    output
  else output

/-! ### The color-analysis retry flow (performColorAnalysisFlow) -/

/-- `'AI-analyse antwoordde, maar de output was leeg of niet in het verwachte formaat.'`
(identical text in both retry-enabled flows). -/
def emptyOutputMessage : String :=
  "AI-analyse antwoordde, maar de output was leeg of niet in het verwachte formaat."

/-- The error message built from a caught `ZodError` in `performColorAnalysisFlow`:
all issues are mapped to `Veld '<path>': <message>` and joined with `; `. -/
def colorZodErrorMessage (issues : List (String × String)) : String :=
  "AI-output validatiefout: " ++
  joinSep "; " (issues.map (fun pm => "Veld '" ++ (if pm.1.isEmpty then "root" else pm.1) ++ "': " ++ pm.2)) ++
  ". Controleer of de AI de data in het juiste formaat retourneert, inclusief het correcte aantal kleuren indien een seizoen is bepaald."

/-- The exhausted-retries message of `performColorAnalysisFlow`. -/
def colorExhaustedMessage (msg : String) : String :=
  "AI-analyse mislukt na " ++ toString maxRetries ++
  " pogingen vanwege API-problemen (bijv. overbelasting, rate limits). Probeer het later opnieuw. Fout: " ++
  (if msg.isEmpty then "Onbekende API fout" else msg)

/-- The throw placed after the retry loop of `performColorAnalysisFlow`. -/
def colorFallbackMessage : String :=
  "De kleuranalyse is onverwacht mislukt na alle pogingen."

/-- What one iteration of the `performColorAnalysisFlow` try-block produces:
a successful (normalized, validated) output, or the error that reaches the
catch-block.  `outcome` is the result of `await prompt(input)`. -/
def colorAttemptStep (outcome : CallOutcome PerformColorAnalysisOutput) :
    Except FlowError PerformColorAnalysisOutput :=
  match outcome with
  | .failure msg => .error (.jsError msg)
  | .success none => .error (.jsError emptyOutputMessage)
  | .success (some out) =>
    let out := normalizeColorOutput out
    match validatePerformColorAnalysisOutput out with
    | [] => .ok out
    | issue :: rest => .error (.zodError (issue :: rest))

/-- The retry loop of `performColorAnalysisFlow`.  `remaining` is the fuel
left in the `for` loop (the loop exit is the `remaining = 0` case, marked by
`fellThrough`), `attempt` the loop counter, `delay` the current backoff. -/
def performColorAnalysisGo (outcomes : Nat → CallOutcome PerformColorAnalysisOutput) :
    Nat → Nat → Nat → RunResult PerformColorAnalysisOutput
  | 0, _, _ => { result := .error colorFallbackMessage, calls := 0, delays := [], fellThrough := true }
  | remaining + 1, attempt, delay =>
    match colorAttemptStep (outcomes attempt) with
    | .ok out => { result := .ok out, calls := 1, delays := [], fellThrough := false }
    | .error (.zodError issues) =>
      { result := .error (colorZodErrorMessage issues), calls := 1, delays := [], fellThrough := false }
    | .error (.jsError msg) =>
      if isRetryableMessage msg then
        if attempt < maxRetries - 1 then
          let r := performColorAnalysisGo outcomes remaining (attempt + 1) (delay * 2)
          { result := r.result, calls := r.calls + 1, delays := delay :: r.delays, fellThrough := r.fellThrough }
        else
          { result := .error (colorExhaustedMessage msg), calls := 1, delays := [], fellThrough := false }
      else
        { result := .error msg, calls := 1, delays := [], fellThrough := false }

/-- `performColorAnalysisFlow`, run against a sequence of model-call outcomes
(the outcome of the model invocation made on attempt `i` is `outcomes i`). -/
def performColorAnalysisFlow (outcomes : Nat → CallOutcome PerformColorAnalysisOutput) :
    RunResult PerformColorAnalysisOutput :=
  performColorAnalysisGo outcomes maxRetries 0 initialDelay

/-! ### The clothing-analysis retry flow (analyzeClothingItemFlow) -/

/-- Raw structured output of the clothing-analysis prompt.  Each required
string field of `AnalyzeClothingItemOutputSchema` may be missing from what
the model actually returned, which is what `parse` checks. -/
structure RawClothingOutput where
  itemName : Option String
  itemType : Option String
  itemColor : Option String
  itemStyle : Option String
  fullDescription : Option String
  deriving DecidableEq

/-- Zod validation of `AnalyzeClothingItemOutputSchema`: one `Required`
issue per missing required field, in schema declaration order. -/
def validateAnalyzeClothingItemOutput (r : RawClothingOutput) : List (String × String) :=
  (if r.itemName.isNone then [("itemName", "Required")] else []) ++
  (if r.itemType.isNone then [("itemType", "Required")] else []) ++
  (if r.itemColor.isNone then [("itemColor", "Required")] else []) ++
  (if r.itemStyle.isNone then [("itemStyle", "Required")] else []) ++
  (if r.fullDescription.isNone then [("fullDescription", "Required")] else [])

/-- The error message built from a caught `ZodError` in `analyzeClothingItemFlow`:
all issues are mapped to `<path>: <message>` and joined with `; `. -/
def clothingZodErrorMessage (issues : List (String × String)) : String :=
  "AI-output validatiefout: De data van de AI voldoet niet aan het verwachte formaat. Details: " ++
  joinSep "; " (issues.map (fun pm => (if pm.1.isEmpty then "item" else pm.1) ++ ": " ++ pm.2))

/-- The exhausted-retries message of `analyzeClothingItemFlow`. -/
def clothingExhaustedMessage (msg : String) : String :=
  "AI-analyse mislukt na " ++ toString maxRetries ++
  " pogingen vanwege API-problemen (bijv. overbelasting, rate limits). Laatste fout: " ++
  (if msg.isEmpty then "Onbekende API fout" else msg)

/-- The throw placed after the retry loop of `analyzeClothingItemFlow`. -/
def clothingFallbackMessage : String :=
  "AI-analyse is onverwacht mislukt na alle pogingen."

/-- What one iteration of the `analyzeClothingItemFlow` try-block produces. -/
def clothingAttemptStep (outcome : CallOutcome RawClothingOutput) :
    Except FlowError RawClothingOutput :=
  match outcome with
  | .failure msg => .error (.jsError msg)
  | .success none => .error (.jsError emptyOutputMessage)
  | .success (some out) =>
    match validateAnalyzeClothingItemOutput out with
    | [] => .ok out
    | issue :: rest => .error (.zodError (issue :: rest))

/-- The retry loop of `analyzeClothingItemFlow` (same shape as the color
flow's loop; the code is duplicated in the source). -/
def analyzeClothingItemGo (outcomes : Nat → CallOutcome RawClothingOutput) :
    Nat → Nat → Nat → RunResult RawClothingOutput
  | 0, _, _ => { result := .error clothingFallbackMessage, calls := 0, delays := [], fellThrough := true }
  | remaining + 1, attempt, delay =>
    match clothingAttemptStep (outcomes attempt) with
    | .ok out => { result := .ok out, calls := 1, delays := [], fellThrough := false }
    | .error (.zodError issues) =>
      { result := .error (clothingZodErrorMessage issues), calls := 1, delays := [], fellThrough := false }
    | .error (.jsError msg) =>
      if isRetryableMessage msg then
        if attempt < maxRetries - 1 then
          let r := analyzeClothingItemGo outcomes remaining (attempt + 1) (delay * 2)
          { result := r.result, calls := r.calls + 1, delays := delay :: r.delays, fellThrough := r.fellThrough }
        else
          { result := .error (clothingExhaustedMessage msg), calls := 1, delays := [], fellThrough := false }
      else
        { result := .error msg, calls := 1, delays := [], fellThrough := false }

/-- `analyzeClothingItemFlow`, run against a sequence of model-call outcomes. -/
def analyzeClothingItemFlow (outcomes : Nat → CallOutcome RawClothingOutput) :
    RunResult RawClothingOutput :=
  analyzeClothingItemGo outcomes maxRetries 0 initialDelay

/-! ### The outfit-suggestion flow (generateOutfitSuggestionFlow) -/

/-- Raw output of the first (structured-text) call of the outfit-suggestion
flow; each field may be missing from what the model returned. -/
structure RawSuggestionText where
  outfitSuggestion : Option String
  reasoning : Option String
  suggestedShoes : Option String
  suggestedSocks : Option String
  deriving DecidableEq

/-- `GenerateOutfitSuggestionOutputSchema` as a record. -/
structure GenerateOutfitSuggestionOutput where
  outfitSuggestion : String
  reasoning : String
  suggestedShoes : String
  suggestedSocks : Option String
  outfitImageUrl : String
  deriving DecidableEq

/-- JS falsiness of an optional string field: missing, or the empty string. -/
def strFalsy : Option String → Bool
  | none => true
  | some s => s.isEmpty

/-- `!textOutput || !textOutput.outfitSuggestion || !textOutput.suggestedShoes || !textOutput.reasoning`. -/
def suggestionTextIncomplete : Option RawSuggestionText → Bool
  | none => true
  | some t => strFalsy t.outfitSuggestion || strFalsy t.suggestedShoes || strFalsy t.reasoning

/-- The incomplete-text error message of the outfit-suggestion flow. -/
def suggestionIncompleteMessage : String :=
  "AI response for outfit text suggestion was empty, incomplete, or not in the expected format."

/-- Trace of an outfit-suggestion invocation: the final result, plus how
often each of the two model operations (text prompt, image generation) was
invoked. -/
structure TwoCallResult where
  result : Except String GenerateOutfitSuggestionOutput
  textCalls : Nat
  imageCalls : Nat
  deriving DecidableEq

/-- `generateOutfitSuggestionFlow`, run against the outcome of its text call
and the outcome of its image call (`.success none` models a resolved
`ai.generate` whose `media?.url` is absent).  There is no retry wrapper in
this flow: any rejection propagates directly. -/
def generateOutfitSuggestionFlow (textOutcome : CallOutcome RawSuggestionText)
    (imageOutcome : CallOutcome String) : TwoCallResult :=
  match textOutcome with
  | .failure msg => { result := .error msg, textCalls := 1, imageCalls := 0 }
  | .success t =>
    if suggestionTextIncomplete t then
      { result := .error suggestionIncompleteMessage, textCalls := 1, imageCalls := 0 }
    else
      match t with
      | none => { result := .error suggestionIncompleteMessage, textCalls := 1, imageCalls := 0 }
      | some o =>
        match imageOutcome with
        | .failure msg => { result := .error msg, textCalls := 1, imageCalls := 1 }
        | .success none =>
          { result := .error "Failed to generate outfit image.", textCalls := 1, imageCalls := 1 }
        | .success (some url) =>
          { result := .ok
              { outfitSuggestion := o.outfitSuggestion.getD ""
                reasoning := o.reasoning.getD ""
                suggestedShoes := o.suggestedShoes.getD ""
                suggestedSocks := o.suggestedSocks
                outfitImageUrl := url }
            textCalls := 1
            imageCalls := 1 }

/-! ### The outfit-inspiration flow (generateOutfitInspirationFlow) -/

/-- Raw output of the outfit-inspiration prompt; the `inspiredOutfits` field
may be missing. -/
structure RawInspirationOutput where
  inspiredOutfits : Option (List String)
  deriving DecidableEq

/-- Trace of a single-call flow invocation. -/
structure SingleCallResult (α : Type) where
  result : Except String α
  calls : Nat
  deriving DecidableEq

/-- `generateOutfitInspirationFlow`: one model call, no retry wrapper; the
only check is `!output || !output.inspiredOutfits`. -/
def generateOutfitInspirationFlow (outcome : CallOutcome RawInspirationOutput) :
    SingleCallResult RawInspirationOutput :=
  match outcome with
  | .failure msg => { result := .error msg, calls := 1 }
  | .success none =>
    { result := .error "AI response for outfit inspiration was empty or not in the expected format.", calls := 1 }
  | .success (some out) =>
    match out.inspiredOutfits with
    | none =>
      { result := .error "AI response for outfit inspiration was empty or not in the expected format.", calls := 1 }
    | some _ => { result := .ok out, calls := 1 }

/-! ### The outfit-visualization flow (generateOutfitVisualizationFlow) -/

/-- `ClothingItemVisualSchema`: item description plus optional image data URI. -/
structure ClothingItemVisual where
  description : String
  imageUrl : Option String
  deriving DecidableEq

/-- `GenerateOutfitVisualizationInputSchema`. -/
structure GenerateOutfitVisualizationInput where
  description : String
  items : Option (List ClothingItemVisual)
  deriving DecidableEq

/-- One element of the `promptSegments` array: a text part or a media part. -/
inductive PromptSegment where
  | text : String → PromptSegment
  | media : String → PromptSegment
  deriving DecidableEq

/-- `GenerateOutfitVisualizationOutputSchema`. -/
structure GenerateOutfitVisualizationOutput where
  visualizationUrl : String
  deriving DecidableEq

/-- The segments pushed for one item of `input.items`: the media part is
pushed iff `item.imageUrl.startsWith('data:image')`; otherwise only a text
note is pushed. -/
def itemSegments (item : ClothingItemVisual) : List PromptSegment :=
  match item.imageUrl with
  | some url =>
    if jsStartsWith url "data:image" then
      [.media url, .text ("This is a " ++ item.description ++ ".")]
    else
      [.text ("(Image for " ++ item.description ++ " was not in correct data URI format)")]
  | none => [.text ("- " ++ item.description)]

/-- The full `promptSegments` array built by `generateOutfitVisualizationFlow`
before calling `ai.generate`. -/
def visualizationPromptSegments (input : GenerateOutfitVisualizationInput) : List PromptSegment :=
  [.text ("Generate a high-quality, realistic image of a person wearing the following outfit: " ++ input.description ++ "."),
   .text "Ensure the style is fashionable and clear. The image should be suitable for a fashion app."] ++
  (match input.items with
   | some items =>
     if items.length > 0 then
       .text "\n\nFor additional context, here are some of the items included (prioritize the main description above):" ::
       (items.map itemSegments).flatten
     else []
   | none => [])

/-- Trace of an outfit-visualization invocation: final result, the prompt
segments actually sent to the model, and the number of model invocations. -/
structure VisResult where
  result : Except String GenerateOutfitVisualizationOutput
  promptSent : List PromptSegment
  calls : Nat
  deriving DecidableEq

/-- `generateOutfitVisualizationFlow`, run against the outcome of its single
`ai.generate` call.  No retry wrapper: any rejection propagates directly. -/
def generateOutfitVisualizationFlow (input : GenerateOutfitVisualizationInput)
    (outcome : CallOutcome String) : VisResult :=
  let segs := visualizationPromptSegments input
  match outcome with
  | .failure msg => { result := .error msg, promptSent := segs, calls := 1 }
  | .success none =>
    { result := .error "Failed to generate outfit visualization image. The AI might have declined the request or an unknown error occurred.",
      promptSent := segs, calls := 1 }
  | .success (some url) =>
    { result := .ok { visualizationUrl := url }, promptSent := segs, calls := 1 }

/-- A valid, already-normalized color-analysis result in the sense of the
spec's round-trip property: either the season is determined, or the season
matches an undetermined keyword and the result carries empty color lists,
sentinel characteristics, the sentinel palette and a keyword-bearing
explanation. -/
def isAlreadyNormalized (r : PerformColorAnalysisOutput) : Bool :=
  !isUnanalyzable r ||
  (decide (r.recommendedColors = []) && decide (r.avoidColors = []) &&
   decide (r.characteristics = sentinelCharacteristics) &&
   decide (r.paletteDescription = "Niet te bepalen") &&
   descriptionHasKeyword r.analysisDescription)

/-- Test vector: a raw model output with a determined season but only two
recommended colors and one avoid color (all hex codes well-formed). -/
def shortColorListsExample : PerformColorAnalysisOutput :=
  { seasonType := "Lente"
    analysisDescription := "Warme ondertoon, heldere ogen."
    characteristics := { skinTone := "Warm", hairColor := "Blond", eyeColor := "Blauw" }
    recommendedColors := [{ name := "Rood", hex := "#FF0000" }, { name := "Groen", hex := "#00FF00" }]
    avoidColors := [{ name := "Blauw", hex := "#0000FF" }]
    paletteDescription := "Heldere, warme kleuren" }

/-- Modelled from the spec: the exact data-URI prefix format
`data:<mime>;base64,<payload>` of section 6 ("a self-describing URI beginning
with `data:` + mime type + `;base64,` + encoded payload").  Used only to
compare the spec's format requirement with the code's actual gate. -/
def specDataUriFormat (s : String) : Bool :=
  jsStartsWith s "data:" && strIncludes s ";base64,"

/-! ### Helper lemmas on the string primitives -/

theorem charsPre_append_self (p q : List Char) : charsPre p (p ++ q) = true := by
  induction p with
  | nil => rfl
  | cons a as ih => simp [charsPre, ih]

theorem charsContain_nil_pat (hay : List Char) : charsContain hay [] = true := by
  cases hay <;> simp [charsContain, charsPre]

theorem charsContain_parts (pre pat post : List Char) :
    charsContain (pre ++ (pat ++ post)) pat = true := by
  induction pre with
  | nil =>
    cases pat with
    | nil => simpa using charsContain_nil_pat post
    | cons a as =>
      simp only [List.nil_append, List.cons_append, charsContain]
      have h := charsPre_append_self (a :: as) post
      simp only [List.cons_append] at h
      simp [h]
  | cons c cs ih =>
    simp [charsContain, ih]

/-- If `s` literally decomposes as `a ++ x ++ b`, then JS `s.includes(x)`. -/
theorem strIncludes_parts (a x b : String) : strIncludes (a ++ x ++ b) x = true := by
  show charsContain (a ++ x ++ b).data x.data = true
  rw [String.data_append, String.data_append, List.append_assoc]
  exact charsContain_parts a.data x.data b.data

theorem strIncludes_nil_pat (s : String) : strIncludes s "" = true := by
  exact charsContain_nil_pat s.data

/-- Every element of a joined list occurs literally inside the join. -/
theorem joinSep_decomp (sep x : String) : ∀ l : List String, x ∈ l →
    ∃ a b : String, joinSep sep l = a ++ x ++ b := by
  intro l
  induction l with
  | nil => intro h; cases h
  | cons s rest ih =>
    intro h
    cases rest with
    | nil =>
      rcases List.mem_singleton.mp h with rfl
      exact ⟨"", "", by simp [joinSep, String.empty_append, String.append_empty]⟩
    | cons s2 r2 =>
      rcases List.mem_cons.mp h with rfl | hmem
      · exact ⟨"", sep ++ joinSep sep (s2 :: r2), by
          simp [joinSep, String.empty_append, String.append_assoc]⟩
      · obtain ⟨a, b, hab⟩ := ih hmem
        exact ⟨s ++ sep ++ a, b, by simp [joinSep, hab, String.append_assoc]⟩

/-- A string that JS `includes` a non-empty pattern is itself non-empty. -/
theorem isEmpty_false_of_strIncludes_cons (s : String) (c : Char) (cs : List Char)
    (h : charsContain (jsToLower s).data (c :: cs) = true) : s.isEmpty = false := by
  cases hE : s.isEmpty with
  | false => rfl
  | true =>
    rw [(String.isEmpty_iff s).mp hE] at h
    simp [jsToLower, charsContain, charsPre] at h

/-- A keyword-bearing description is non-empty (all keywords are non-empty). -/
theorem isEmpty_false_of_hasKeyword (s : String) (h : descriptionHasKeyword s = true) :
    s.isEmpty = false := by
  rw [descriptionHasKeyword, List.any_eq_true] at h
  obtain ⟨k, hk, hinc⟩ := h
  rw [unanalyzableSeasonKeywords] at hk
  rw [strIncludes] at hinc
  simp only [List.mem_cons, List.not_mem_nil, or_false] at hk
  rcases hk with rfl | rfl | rfl | rfl | rfl
  · exact isEmpty_false_of_strIncludes_cons s _ _ hinc
  · exact isEmpty_false_of_strIncludes_cons s _ _ hinc
  · exact isEmpty_false_of_strIncludes_cons s _ _ hinc
  · exact isEmpty_false_of_strIncludes_cons s _ _ hinc
  · exact isEmpty_false_of_strIncludes_cons s _ _ hinc

/-- Every issue's (possibly remapped) path and message occur literally in the
error text built by `performColorAnalysisFlow` from a `ZodError`. -/
theorem colorZodErrorMessage_enumerates (issues : List (String × String)) (p m : String)
    (h : (p, m) ∈ issues) :
    strIncludes (colorZodErrorMessage issues) p = true ∧
    strIncludes (colorZodErrorMessage issues) m = true := by
  have hmem : ("Veld '" ++ (if p.isEmpty then "root" else p) ++ "': " ++ m) ∈
      issues.map (fun pm => "Veld '" ++ (if pm.1.isEmpty then "root" else pm.1) ++ "': " ++ pm.2) :=
    List.mem_map_of_mem _ h
  obtain ⟨a, b, hab⟩ := joinSep_decomp "; " _ _ hmem
  constructor
  · cases hp : p.isEmpty with
    | true =>
      rw [(String.isEmpty_iff p).mp hp]
      exact strIncludes_nil_pat _
    | false =>
      have : colorZodErrorMessage issues =
          ("AI-output validatiefout: " ++ a ++ "Veld '") ++ p ++
          (("': " ++ m) ++ (b ++ ". Controleer of de AI de data in het juiste formaat retourneert, inclusief het correcte aantal kleuren indien een seizoen is bepaald.")) := by
        rw [colorZodErrorMessage, hab, hp]
        simp [String.append_assoc]
      rw [this]
      exact strIncludes_parts _ _ _
  · have : colorZodErrorMessage issues =
        ("AI-output validatiefout: " ++ a ++ ("Veld '" ++ (if p.isEmpty then "root" else p) ++ "': ")) ++ m ++
        (b ++ ". Controleer of de AI de data in het juiste formaat retourneert, inclusief het correcte aantal kleuren indien een seizoen is bepaald.") := by
      rw [colorZodErrorMessage, hab]
      simp [String.append_assoc]
    rw [this]
    exact strIncludes_parts _ _ _

/-- Every issue's (possibly remapped) path and message occur literally in the
error text built by `analyzeClothingItemFlow` from a `ZodError`. -/
theorem clothingZodErrorMessage_enumerates (issues : List (String × String)) (p m : String)
    (h : (p, m) ∈ issues) :
    strIncludes (clothingZodErrorMessage issues) p = true ∧
    strIncludes (clothingZodErrorMessage issues) m = true := by
  have hmem : ((if p.isEmpty then "item" else p) ++ ": " ++ m) ∈
      issues.map (fun pm => (if pm.1.isEmpty then "item" else pm.1) ++ ": " ++ pm.2) :=
    List.mem_map_of_mem _ h
  obtain ⟨a, b, hab⟩ := joinSep_decomp "; " _ _ hmem
  constructor
  · cases hp : p.isEmpty with
    | true =>
      rw [(String.isEmpty_iff p).mp hp]
      exact strIncludes_nil_pat _
    | false =>
      have : clothingZodErrorMessage issues =
          ("AI-output validatiefout: De data van de AI voldoet niet aan het verwachte formaat. Details: " ++ a) ++ p ++
          ((": " ++ m) ++ b) := by
        rw [clothingZodErrorMessage, hab, hp]
        simp [String.append_assoc]
      rw [this]
      exact strIncludes_parts _ _ _
  · have : clothingZodErrorMessage issues =
        ("AI-output validatiefout: De data van de AI voldoet niet aan het verwachte formaat. Details: " ++ a ++ ((if p.isEmpty then "item" else p) ++ ": ")) ++ m ++ b := by
      rw [clothingZodErrorMessage, hab]
      simp [String.append_assoc]
    rw [this]
    exact strIncludes_parts _ _ _

/-! ### Invariants of the clothing-analysis retry loop -/

theorem analyzeClothingItemGo_calls_pos (oc : Nat → CallOutcome RawClothingOutput)
    (rem att d : Nat) : 1 ≤ (analyzeClothingItemGo oc (rem + 1) att d).calls := by
  rw [analyzeClothingItemGo]
  split
  · simp
  · simp
  · split
    · split
      · simp
      · simp
    · simp

theorem analyzeClothingItemGo_calls_le (oc : Nat → CallOutcome RawClothingOutput) :
    ∀ rem att d, (analyzeClothingItemGo oc rem att d).calls ≤ rem := by
  intro rem
  induction rem with
  | zero => intro att d; simp [analyzeClothingItemGo]
  | succ r ih =>
    intro att d
    rw [analyzeClothingItemGo]
    split
    · simp
    · simp
    · split
      · split
        · simpa using Nat.add_le_add_right (ih (att + 1) (d * 2)) 1
        · simp
      · simp

theorem analyzeClothingItemGo_delays_after (oc : Nat → CallOutcome RawClothingOutput)
    (rem att d : Nat) (h : 2 ≤ att) : (analyzeClothingItemGo oc rem att d).delays = [] := by
  cases rem with
  | zero => simp [analyzeClothingItemGo]
  | succ r =>
    rw [analyzeClothingItemGo]
    split
    · simp
    · simp
    · split
      · split
        · rename_i hlt
          rw [maxRetries] at hlt
          omega
        · simp
      · simp

theorem analyzeClothingItemGo_delays_one (oc : Nat → CallOutcome RawClothingOutput)
    (rem d : Nat) :
    (analyzeClothingItemGo oc rem 1 d).delays = [] ∨
    (analyzeClothingItemGo oc rem 1 d).delays = [d] := by
  cases rem with
  | zero => left; simp [analyzeClothingItemGo]
  | succ r =>
    rw [analyzeClothingItemGo]
    split
    · left; simp
    · left; simp
    · split
      · split
        · right
          simp [analyzeClothingItemGo_delays_after oc r 2 (d * 2) (Nat.le_refl 2)]
        · left; simp
      · left; simp

theorem analyzeClothingItemGo_delays_zero (oc : Nat → CallOutcome RawClothingOutput)
    (rem d : Nat) :
    (analyzeClothingItemGo oc rem 0 d).delays = [] ∨
    (analyzeClothingItemGo oc rem 0 d).delays = [d] ∨
    (analyzeClothingItemGo oc rem 0 d).delays = [d, d * 2] := by
  cases rem with
  | zero => left; simp [analyzeClothingItemGo]
  | succ r =>
    rw [analyzeClothingItemGo]
    split
    · left; simp
    · left; simp
    · split
      · split
        · rcases analyzeClothingItemGo_delays_one oc r (d * 2) with h | h
          · right; left; simp [h]
          · right; right; simp [h]
        · left; simp
      · left; simp

theorem analyzeClothingItemGo_no_fallthrough (oc : Nat → CallOutcome RawClothingOutput) :
    ∀ rem att d, 1 ≤ rem → 3 ≤ att + rem →
    (analyzeClothingItemGo oc rem att d).fellThrough = false := by
  intro rem
  induction rem with
  | zero => intro att d h1 _; omega
  | succ r ih =>
    intro att d _ h3
    rw [analyzeClothingItemGo]
    split
    · simp
    · simp
    · split
      · split
        · rename_i hlt
          rw [maxRetries] at hlt
          have hr : 1 ≤ r := by omega
          simpa using ih (att + 1) (d * 2) hr (by omega)
        · simp
      · simp

/-! ### Invariants of the color-analysis retry loop -/

theorem performColorAnalysisGo_calls_pos (oc : Nat → CallOutcome PerformColorAnalysisOutput)
    (rem att d : Nat) : 1 ≤ (performColorAnalysisGo oc (rem + 1) att d).calls := by
  rw [performColorAnalysisGo]
  split
  · simp
  · simp
  · split
    · split
      · simp
      · simp
    · simp

theorem performColorAnalysisGo_calls_le (oc : Nat → CallOutcome PerformColorAnalysisOutput) :
    ∀ rem att d, (performColorAnalysisGo oc rem att d).calls ≤ rem := by
  intro rem
  induction rem with
  | zero => intro att d; simp [performColorAnalysisGo]
  | succ r ih =>
    intro att d
    rw [performColorAnalysisGo]
    split
    · simp
    · simp
    · split
      · split
        · simpa using Nat.add_le_add_right (ih (att + 1) (d * 2)) 1
        · simp
      · simp

theorem performColorAnalysisGo_delays_after (oc : Nat → CallOutcome PerformColorAnalysisOutput)
    (rem att d : Nat) (h : 2 ≤ att) : (performColorAnalysisGo oc rem att d).delays = [] := by
  cases rem with
  | zero => simp [performColorAnalysisGo]
  | succ r =>
    rw [performColorAnalysisGo]
    split
    · simp
    · simp
    · split
      · split
        · rename_i hlt
          rw [maxRetries] at hlt
          omega
        · simp
      · simp

theorem performColorAnalysisGo_delays_one (oc : Nat → CallOutcome PerformColorAnalysisOutput)
    (rem d : Nat) :
    (performColorAnalysisGo oc rem 1 d).delays = [] ∨
    (performColorAnalysisGo oc rem 1 d).delays = [d] := by
  cases rem with
  | zero => left; simp [performColorAnalysisGo]
  | succ r =>
    rw [performColorAnalysisGo]
    split
    · left; simp
    · left; simp
    · split
      · split
        · right
          simp [performColorAnalysisGo_delays_after oc r 2 (d * 2) (Nat.le_refl 2)]
        · left; simp
      · left; simp

theorem performColorAnalysisGo_delays_zero (oc : Nat → CallOutcome PerformColorAnalysisOutput)
    (rem d : Nat) :
    (performColorAnalysisGo oc rem 0 d).delays = [] ∨
    (performColorAnalysisGo oc rem 0 d).delays = [d] ∨
    (performColorAnalysisGo oc rem 0 d).delays = [d, d * 2] := by
  cases rem with
  | zero => left; simp [performColorAnalysisGo]
  | succ r =>
    rw [performColorAnalysisGo]
    split
    · left; simp
    · left; simp
    · split
      · split
        · rcases performColorAnalysisGo_delays_one oc r (d * 2) with h | h
          · right; left; simp [h]
          · right; right; simp [h]
        · left; simp
      · left; simp

theorem performColorAnalysisGo_no_fallthrough (oc : Nat → CallOutcome PerformColorAnalysisOutput) :
    ∀ rem att d, 1 ≤ rem → 3 ≤ att + rem →
    (performColorAnalysisGo oc rem att d).fellThrough = false := by
  intro rem
  induction rem with
  | zero => intro att d h1 _; omega
  | succ r ih =>
    intro att d _ h3
    rw [performColorAnalysisGo]
    split
    · simp
    · simp
    · split
      · split
        · rename_i hlt
          rw [maxRetries] at hlt
          have hr : 1 ≤ r := by omega
          simpa using ih (att + 1) (d * 2) hr (by omega)
        · simp
      · simp

/-! ### Normalizer lemmas -/

theorem normalize_determined (r : PerformColorAnalysisOutput) (h : isUnanalyzable r = false) :
    normalizeColorOutput r = r := by
  rw [normalizeColorOutput, h]
  simp

theorem normalize_lists_empty (r : PerformColorAnalysisOutput) (h : isUnanalyzable r = true) :
    (normalizeColorOutput r).recommendedColors = [] ∧
    (normalizeColorOutput r).avoidColors = [] := by
  rw [normalizeColorOutput, h]
  simp only [if_true]
  split <;> split <;> split <;> simp

theorem validate_of_empty_lists (r : PerformColorAnalysisOutput)
    (h1 : r.recommendedColors = []) (h2 : r.avoidColors = []) :
    validatePerformColorAnalysisOutput r = [] := by
  rw [validatePerformColorAnalysisOutput, h1, h2]
  rfl

theorem normalize_palette_keyword (r : PerformColorAnalysisOutput) (h : isUnanalyzable r = true) :
    strIncludes (jsToLower (normalizeColorOutput r).paletteDescription) "niet te bepalen" = true := by
  rw [normalizeColorOutput, h]
  simp only [if_true]
  split <;> split <;> split
  all_goals simp_all
  all_goals decide

theorem normalize_characteristics_sentinel (r : PerformColorAnalysisOutput)
    (h : isUnanalyzable r = true)
    (hskin : strIncludes (jsToLower r.characteristics.skinTone) "niet te bepalen" = false) :
    (normalizeColorOutput r).characteristics = sentinelCharacteristics := by
  rw [normalizeColorOutput, h]
  simp only [if_true]
  split <;> split <;> split
  all_goals simp_all

/-! ### Per-branch step lemmas for the retry loops -/

theorem colorAttemptStep_ok_of_determined (raw : PerformColorAnalysisOutput)
    (hdet : isUnanalyzable raw = false)
    (hval : validatePerformColorAnalysisOutput raw = []) :
    colorAttemptStep (.success (some raw)) = .ok raw := by
  rw [colorAttemptStep]
  rw [normalize_determined raw hdet, hval]

theorem colorAttemptStep_ok_of_unanalyzable (raw : PerformColorAnalysisOutput)
    (h : isUnanalyzable raw = true) :
    colorAttemptStep (.success (some raw)) = .ok (normalizeColorOutput raw) := by
  rw [colorAttemptStep]
  obtain ⟨h1, h2⟩ := normalize_lists_empty raw h
  rw [validate_of_empty_lists _ h1 h2]

theorem performColorAnalysisGo_step_ok (oc : Nat → CallOutcome PerformColorAnalysisOutput)
    (rem att d : Nat) (out : PerformColorAnalysisOutput)
    (hstep : colorAttemptStep (oc att) = .ok out) :
    performColorAnalysisGo oc (rem + 1) att d =
      { result := .ok out, calls := 1, delays := [], fellThrough := false } := by
  rw [performColorAnalysisGo, hstep]

theorem performColorAnalysisGo_step_zod (oc : Nat → CallOutcome PerformColorAnalysisOutput)
    (rem att d : Nat) (issues : List (String × String))
    (hstep : colorAttemptStep (oc att) = .error (.zodError issues)) :
    performColorAnalysisGo oc (rem + 1) att d =
      { result := .error (colorZodErrorMessage issues), calls := 1, delays := [], fellThrough := false } := by
  rw [performColorAnalysisGo, hstep]

theorem performColorAnalysisGo_step_retry (oc : Nat → CallOutcome PerformColorAnalysisOutput)
    (rem att d : Nat) (msg : String)
    (hstep : colorAttemptStep (oc att) = .error (.jsError msg))
    (hret : isRetryableMessage msg = true) (hatt : att < 2) :
    performColorAnalysisGo oc (rem + 1) att d =
      { result := (performColorAnalysisGo oc rem (att + 1) (d * 2)).result
        calls := (performColorAnalysisGo oc rem (att + 1) (d * 2)).calls + 1
        delays := d :: (performColorAnalysisGo oc rem (att + 1) (d * 2)).delays
        fellThrough := (performColorAnalysisGo oc rem (att + 1) (d * 2)).fellThrough } := by
  rw [performColorAnalysisGo, hstep]
  simp only [hret, if_true]
  rw [if_pos (show att < maxRetries - 1 from hatt)]

theorem performColorAnalysisGo_step_exhausted (oc : Nat → CallOutcome PerformColorAnalysisOutput)
    (rem att d : Nat) (msg : String)
    (hstep : colorAttemptStep (oc att) = .error (.jsError msg))
    (hret : isRetryableMessage msg = true) (hatt : ¬ att < 2) :
    performColorAnalysisGo oc (rem + 1) att d =
      { result := .error (colorExhaustedMessage msg), calls := 1, delays := [], fellThrough := false } := by
  rw [performColorAnalysisGo, hstep]
  simp only [hret, if_true]
  rw [if_neg (show ¬ att < maxRetries - 1 from hatt)]

theorem performColorAnalysisGo_step_nonretryable (oc : Nat → CallOutcome PerformColorAnalysisOutput)
    (rem att d : Nat) (msg : String)
    (hstep : colorAttemptStep (oc att) = .error (.jsError msg))
    (hret : isRetryableMessage msg = false) :
    performColorAnalysisGo oc (rem + 1) att d =
      { result := .error msg, calls := 1, delays := [], fellThrough := false } := by
  rw [performColorAnalysisGo, hstep]
  simp only [hret]
  rfl

theorem clothingAttemptStep_ok (raw : RawClothingOutput)
    (hval : validateAnalyzeClothingItemOutput raw = []) :
    clothingAttemptStep (.success (some raw)) = .ok raw := by
  rw [clothingAttemptStep, hval]

theorem analyzeClothingItemGo_step_ok (oc : Nat → CallOutcome RawClothingOutput)
    (rem att d : Nat) (out : RawClothingOutput)
    (hstep : clothingAttemptStep (oc att) = .ok out) :
    analyzeClothingItemGo oc (rem + 1) att d =
      { result := .ok out, calls := 1, delays := [], fellThrough := false } := by
  rw [analyzeClothingItemGo, hstep]

theorem analyzeClothingItemGo_step_zod (oc : Nat → CallOutcome RawClothingOutput)
    (rem att d : Nat) (issues : List (String × String))
    (hstep : clothingAttemptStep (oc att) = .error (.zodError issues)) :
    analyzeClothingItemGo oc (rem + 1) att d =
      { result := .error (clothingZodErrorMessage issues), calls := 1, delays := [], fellThrough := false } := by
  rw [analyzeClothingItemGo, hstep]

theorem analyzeClothingItemGo_step_retry (oc : Nat → CallOutcome RawClothingOutput)
    (rem att d : Nat) (msg : String)
    (hstep : clothingAttemptStep (oc att) = .error (.jsError msg))
    (hret : isRetryableMessage msg = true) (hatt : att < 2) :
    analyzeClothingItemGo oc (rem + 1) att d =
      { result := (analyzeClothingItemGo oc rem (att + 1) (d * 2)).result
        calls := (analyzeClothingItemGo oc rem (att + 1) (d * 2)).calls + 1
        delays := d :: (analyzeClothingItemGo oc rem (att + 1) (d * 2)).delays
        fellThrough := (analyzeClothingItemGo oc rem (att + 1) (d * 2)).fellThrough } := by
  rw [analyzeClothingItemGo, hstep]
  simp only [hret, if_true]
  rw [if_pos (show att < maxRetries - 1 from hatt)]

theorem analyzeClothingItemGo_step_exhausted (oc : Nat → CallOutcome RawClothingOutput)
    (rem att d : Nat) (msg : String)
    (hstep : clothingAttemptStep (oc att) = .error (.jsError msg))
    (hret : isRetryableMessage msg = true) (hatt : ¬ att < 2) :
    analyzeClothingItemGo oc (rem + 1) att d =
      { result := .error (clothingExhaustedMessage msg), calls := 1, delays := [], fellThrough := false } := by
  rw [analyzeClothingItemGo, hstep]
  simp only [hret, if_true]
  rw [if_neg (show ¬ att < maxRetries - 1 from hatt)]

theorem analyzeClothingItemGo_step_nonretryable (oc : Nat → CallOutcome RawClothingOutput)
    (rem att d : Nat) (msg : String)
    (hstep : clothingAttemptStep (oc att) = .error (.jsError msg))
    (hret : isRetryableMessage msg = false) :
    analyzeClothingItemGo oc (rem + 1) att d =
      { result := .error msg, calls := 1, delays := [], fellThrough := false } := by
  rw [analyzeClothingItemGo, hstep]
  simp only [hret]
  rfl

/-- A message containing `rate limit` (after lowercasing) is classified retryable. -/
theorem isRetryableMessage_of_rate_limit (msg : String)
    (h : strIncludes (jsToLower msg) "rate limit" = true) :
    isRetryableMessage msg = true := by
  have hne : msg.isEmpty = false := by
    cases hE : msg.isEmpty with
    | false => rfl
    | true =>
      rw [(String.isEmpty_iff msg).mp hE] at h
      simp [jsToLower, strIncludes, charsContain, charsPre] at h
  rw [isRetryableMessage, effectiveMessage, hne]
  simp [h]

/-! ### Media-gate lemmas for the visualization prompt -/

theorem media_mem_itemSegments (item : ClothingItemVisual) (url : String)
    (h : PromptSegment.media url ∈ itemSegments item) :
    jsStartsWith url "data:image" = true ∧ item.imageUrl = some url := by
  obtain ⟨desc, iu⟩ := item
  cases iu with
  | none => simp [itemSegments] at h
  | some u =>
    cases hs : jsStartsWith u "data:image" with
    | false => simp [itemSegments, hs] at h
    | true =>
      simp [itemSegments, hs] at h
      subst h
      exact ⟨hs, rfl⟩

theorem media_mem_visualizationPromptSegments (input : GenerateOutfitVisualizationInput)
    (url : String) (h : PromptSegment.media url ∈ visualizationPromptSegments input) :
    jsStartsWith url "data:image" = true := by
  obtain ⟨desc, its⟩ := input
  cases its with
  | none => simp [visualizationPromptSegments] at h
  | some items =>
    by_cases hlen : items.length > 0
    · simp only [visualizationPromptSegments, hlen, if_true, List.mem_append, List.mem_cons,
        List.mem_singleton] at h
      rcases h with (h2 | h2 | h2) | h2 | h3
      · cases h2
      · cases h2
      · cases h2
      · cases h2
      · obtain ⟨l, hl, hmem⟩ := List.mem_flatten.mp h3
        obtain ⟨item, _, rfl⟩ := List.mem_map.mp hl
        exact (media_mem_itemSegments item url hmem).1
    · simp [visualizationPromptSegments, hlen] at h

/-! ### Claim theorems -/

/-- Claim C9: the season-analysis output normalizer is idempotent: every
valid, already-normalized color-analysis result (a determined-season result,
or an undetermined result with empty color lists, sentinel characteristics
and palette, and a keyword-bearing explanation) passes through the
normalization pass unchanged. -/
theorem c9_normalizer_idempotent (r : PerformColorAnalysisOutput)
    (h : isAlreadyNormalized r = true) : normalizeColorOutput r = r := by
  cases hU : isUnanalyzable r with
  | false => exact normalize_determined r hU
  | true =>
    rw [isAlreadyNormalized, hU] at h
    simp only [Bool.not_true, Bool.false_or, Bool.and_eq_true, decide_eq_true_eq] at h
    obtain ⟨⟨⟨⟨h1, h2⟩, h3⟩, h4⟩, h5⟩ := h
    have hdesc : r.analysisDescription.isEmpty = false := isEmpty_false_of_hasKeyword _ h5
    have hsent : strIncludes (jsToLower sentinelCharacteristics.skinTone) "niet te bepalen" = true := by
      decide
    have hpal1 : ("Niet te bepalen" : String).isEmpty = false := by decide
    have hpal2 : strIncludes (jsToLower "Niet te bepalen") "niet te bepalen" = true := by decide
    rw [normalizeColorOutput, hU]
    obtain ⟨st, ad, chars, rc, ac, pd⟩ := r
    simp only at h1 h2 h3 h4 h5 hdesc
    subst h1
    subst h2
    subst h3
    subst h4
    simp [hdesc, h5, hsent, hpal1, hpal2]

/-- Witness for C9: a concrete, already-normalized undetermined result is
returned unchanged by the normalizer. -/
theorem c9_normalizer_idempotent_witness :
    isAlreadyNormalized
      { seasonType := "Niet te bepalen", analysisDescription := "Geen gezicht zichtbaar op de foto."
        characteristics := sentinelCharacteristics, recommendedColors := [], avoidColors := []
        paletteDescription := "Niet te bepalen" } = true ∧
    normalizeColorOutput
      { seasonType := "Niet te bepalen", analysisDescription := "Geen gezicht zichtbaar op de foto."
        characteristics := sentinelCharacteristics, recommendedColors := [], avoidColors := []
        paletteDescription := "Niet te bepalen" } =
      { seasonType := "Niet te bepalen", analysisDescription := "Geen gezicht zichtbaar op de foto."
        characteristics := sentinelCharacteristics, recommendedColors := [], avoidColors := []
        paletteDescription := "Niet te bepalen" } :=
  ⟨by decide, c9_normalizer_idempotent _ (by decide)⟩

/-- Claim C3 (code bug): a determined-season raw output with only 2
recommended colors and 1 avoid color passes the output schema (which has no
array-minimum constraints) and is returned successfully by
`performColorAnalysisFlow`, contradicting the flow's own comment that such
an output "will cause a Zod error below". -/
theorem c3_short_lists_accepted :
    shortColorListsExample.recommendedColors.length < 5 ∧
    shortColorListsExample.avoidColors.length < 3 ∧
    isUnanalyzable shortColorListsExample = false ∧
    validatePerformColorAnalysisOutput shortColorListsExample = [] ∧
    performColorAnalysisFlow (fun _ => .success (some shortColorListsExample)) =
      { result := .ok shortColorListsExample, calls := 1, delays := [], fellThrough := false } := by
  decide

/-- Claim C2 counterexample: an undetermined-season raw output whose
`skinTone` already contains the keyword keeps its raw `hairColor` (here
"Bruin"), so not all three characteristic fields of the returned result
equal the "Niet te bepalen" sentinel. -/
theorem c2_counterexample :
    isUnanalyzable
      { seasonType := "Niet te bepalen", analysisDescription := "geen gezicht"
        characteristics := { skinTone := "Niet te bepalen", hairColor := "Bruin", eyeColor := "Blauw" }
        recommendedColors := [], avoidColors := [], paletteDescription := "Niet te bepalen" } = true ∧
    (performColorAnalysisFlow (fun _ => .success (some
      { seasonType := "Niet te bepalen", analysisDescription := "geen gezicht"
        characteristics := { skinTone := "Niet te bepalen", hairColor := "Bruin", eyeColor := "Blauw" }
        recommendedColors := [], avoidColors := [], paletteDescription := "Niet te bepalen" }))).result =
      .ok
      { seasonType := "Niet te bepalen", analysisDescription := "geen gezicht"
        characteristics := { skinTone := "Niet te bepalen", hairColor := "Bruin", eyeColor := "Blauw" }
        recommendedColors := [], avoidColors := [], paletteDescription := "Niet te bepalen" } ∧
    ({ skinTone := "Niet te bepalen", hairColor := "Bruin", eyeColor := "Blauw" } : Characteristics).hairColor ≠
      "Niet te bepalen" := by
  decide

/-- Claim C2 (amended): for every raw model output whose season matches an
undetermined keyword, the flow succeeds on that attempt with the normalized
output; both color lists of the result are empty; the characteristics are
forced to the sentinel triple whenever the raw `skinTone` does not already
contain "niet te bepalen" (case-insensitively), and otherwise kept as-is;
and the returned `paletteDescription` always contains "niet te bepalen"
(rather than being exactly the sentinel). -/
theorem c2_amended_undetermined_normalization
    (oc : Nat → CallOutcome PerformColorAnalysisOutput) (raw : PerformColorAnalysisOutput)
    (h0 : oc 0 = .success (some raw)) (hU : isUnanalyzable raw = true) :
    performColorAnalysisFlow oc =
      { result := .ok (normalizeColorOutput raw), calls := 1, delays := [], fellThrough := false } ∧
    (normalizeColorOutput raw).recommendedColors = [] ∧
    (normalizeColorOutput raw).avoidColors = [] ∧
    (strIncludes (jsToLower raw.characteristics.skinTone) "niet te bepalen" = false →
      (normalizeColorOutput raw).characteristics = sentinelCharacteristics) ∧
    strIncludes (jsToLower (normalizeColorOutput raw).paletteDescription) "niet te bepalen" = true := by
  have hstep : colorAttemptStep (oc 0) = .ok (normalizeColorOutput raw) := by
    rw [h0]
    exact colorAttemptStep_ok_of_unanalyzable raw hU
  refine ⟨?_, (normalize_lists_empty raw hU).1, (normalize_lists_empty raw hU).2,
    fun hskin => normalize_characteristics_sentinel raw hU hskin,
    normalize_palette_keyword raw hU⟩
  exact performColorAnalysisGo_step_ok oc 2 0 initialDelay _ hstep

/-- Witness for the amended C2 at a concrete undetermined raw output with
stray colors and characteristics. -/
theorem c2_amended_witness :
    isUnanalyzable
      { seasonType := "Kan niet analyseren", analysisDescription := "te donker"
        characteristics := { skinTone := "Warm", hairColor := "Bruin", eyeColor := "Groen" }
        recommendedColors := [{ name := "Rood", hex := "#FF0000" }], avoidColors := []
        paletteDescription := "Warm palet" } = true ∧
    performColorAnalysisFlow (fun _ => .success (some
      { seasonType := "Kan niet analyseren", analysisDescription := "te donker"
        characteristics := { skinTone := "Warm", hairColor := "Bruin", eyeColor := "Groen" }
        recommendedColors := [{ name := "Rood", hex := "#FF0000" }], avoidColors := []
        paletteDescription := "Warm palet" })) =
      { result := .ok (normalizeColorOutput
          { seasonType := "Kan niet analyseren", analysisDescription := "te donker"
            characteristics := { skinTone := "Warm", hairColor := "Bruin", eyeColor := "Groen" }
            recommendedColors := [{ name := "Rood", hex := "#FF0000" }], avoidColors := []
            paletteDescription := "Warm palet" })
        calls := 1, delays := [], fellThrough := false } :=
  ⟨by decide,
   (c2_amended_undetermined_normalization _ _ rfl (by decide)).1⟩

/-- Claim C8: if the first (structured-text) call of the outfit-suggestion
flow resolves with an output that is empty or missing/empty in any of
`outfitSuggestion`, `suggestedShoes` or `reasoning`, the flow fails with the
incomplete-response error and the image-generation call is never invoked,
for any possible outcome of that second call. -/
theorem c8_incomplete_text_skips_image_call (t : Option RawSuggestionText)
    (img : CallOutcome String) (h : suggestionTextIncomplete t = true) :
    generateOutfitSuggestionFlow (.success t) img =
      { result := .error suggestionIncompleteMessage, textCalls := 1, imageCalls := 0 } := by
  rw [generateOutfitSuggestionFlow.eq_def]
  simp [h]

/-- Witness for C8: a text output missing `suggestedShoes` fails without an
image call even though the image call would have succeeded. -/
theorem c8_witness :
    suggestionTextIncomplete (some
      { outfitSuggestion := some "Witte blouse met jeans", reasoning := some "Past bij het weer"
        suggestedShoes := none, suggestedSocks := none }) = true ∧
    generateOutfitSuggestionFlow
      (.success (some
        { outfitSuggestion := some "Witte blouse met jeans", reasoning := some "Past bij het weer"
          suggestedShoes := none, suggestedSocks := none }))
      (.success (some "data:image/png;base64,AAAA")) =
      { result := .error suggestionIncompleteMessage, textCalls := 1, imageCalls := 0 } :=
  ⟨by decide, c8_incomplete_text_skips_image_call _ _ (by decide)⟩

/-- Claim C10 counterexample: the reference "data:imagefoo" does not match
the spec's exact `data:<mime>;base64,<payload>` format, yet the
visualization flow passes it to the model as a media segment (the code only
checks the prefix `data:image`). -/
theorem c10_counterexample :
    specDataUriFormat "data:imagefoo" = false ∧
    PromptSegment.media "data:imagefoo" ∈
      (generateOutfitVisualizationFlow
        { description := "zomerse outfit"
          items := some [{ description := "jas", imageUrl := some "data:imagefoo" }] }
        (.success (some "data:image/png;base64,AAAA"))).promptSent := by
  decide

/-- Claim C10 (amended): the visualization flow gates item images on the
literal prefix `data:image` (not on the full data-URI format): every media
segment in the prompt it sends starts with `data:image`, and an item whose
image reference lacks that prefix contributes only a text note. -/
theorem c10_amended_media_gate (input : GenerateOutfitVisualizationInput)
    (oc : CallOutcome String) :
    (∀ url : String, PromptSegment.media url ∈ (generateOutfitVisualizationFlow input oc).promptSent →
      jsStartsWith url "data:image" = true) ∧
    (∀ d url : String, jsStartsWith url "data:image" = false →
      itemSegments { description := d, imageUrl := some url } =
        [.text ("(Image for " ++ d ++ " was not in correct data URI format)")]) := by
  constructor
  · intro url hmem
    have hseg : (generateOutfitVisualizationFlow input oc).promptSent =
        visualizationPromptSegments input := by
      rw [generateOutfitVisualizationFlow.eq_def]
      cases oc with
      | failure msg => rfl
      | success m => cases m <;> rfl
    rw [hseg] at hmem
    exact media_mem_visualizationPromptSegments input url hmem
  · intro d url hurl
    rw [itemSegments]
    simp [hurl]

/-- Witness for the amended C10 at a concrete non-`data:image` reference. -/
theorem c10_amended_witness :
    jsStartsWith "https://example.com/jas.png" "data:image" = false ∧
    itemSegments { description := "jas", imageUrl := some "https://example.com/jas.png" } =
      [.text "(Image for jas was not in correct data URI format)"] :=
  ⟨by decide,
   (c10_amended_media_gate
      { description := "outfit", items := some [{ description := "jas", imageUrl := some "https://example.com/jas.png" }] }
      (.success none)).2 "jas" "https://example.com/jas.png" (by decide)⟩

/-- Claim C5: for the retry-enabled flows, a model call rejected with a
message matching none of the retryable keywords makes the flow fail after
exactly one invocation, with no backoff delay, propagating the original
error message unwrapped. -/
theorem c5_non_retryable_fails_immediately (msg : String)
    (h : isRetryableMessage msg = false)
    (ocA : Nat → CallOutcome RawClothingOutput) (hA : ocA 0 = .failure msg)
    (ocC : Nat → CallOutcome PerformColorAnalysisOutput) (hC : ocC 0 = .failure msg) :
    analyzeClothingItemFlow ocA =
      { result := .error msg, calls := 1, delays := [], fellThrough := false } ∧
    performColorAnalysisFlow ocC =
      { result := .error msg, calls := 1, delays := [], fellThrough := false } := by
  constructor
  · have hstep : clothingAttemptStep (ocA 0) = .error (.jsError msg) := by rw [hA]; rfl
    exact analyzeClothingItemGo_step_nonretryable ocA 2 0 initialDelay msg hstep h
  · have hstep : colorAttemptStep (ocC 0) = .error (.jsError msg) := by rw [hC]; rfl
    exact performColorAnalysisGo_step_nonretryable ocC 2 0 initialDelay msg hstep h

/-- Witness for C5 at the message "invalid argument". -/
theorem c5_witness :
    isRetryableMessage "invalid argument" = false ∧
    analyzeClothingItemFlow (fun _ => .failure "invalid argument") =
      { result := .error "invalid argument", calls := 1, delays := [], fellThrough := false } ∧
    performColorAnalysisFlow (fun _ => .failure "invalid argument") =
      { result := .error "invalid argument", calls := 1, delays := [], fellThrough := false } :=
  ⟨by decide,
   (c5_non_retryable_fails_immediately "invalid argument" (by decide)
     (fun _ => .failure "invalid argument") rfl (fun _ => .failure "invalid argument") rfl).1,
   (c5_non_retryable_fails_immediately "invalid argument" (by decide)
     (fun _ => .failure "invalid argument") rfl (fun _ => .failure "invalid argument") rfl).2⟩

/-- Claim C4: for the retry-enabled flows, if the model call rejects with a
message containing "rate limit" on the first two attempts and resolves with
a valid output on the third, the flow returns that result, the model is
invoked exactly 3 times, and the suspensions are 2000 then 4000. -/
theorem c4_rate_limit_retry_three_attempts (m1 m2 : String)
    (h1 : strIncludes (jsToLower m1) "rate limit" = true)
    (h2 : strIncludes (jsToLower m2) "rate limit" = true)
    (rawA : RawClothingOutput) (hvA : validateAnalyzeClothingItemOutput rawA = [])
    (rawC : PerformColorAnalysisOutput) (hdetC : isUnanalyzable rawC = false)
    (hvC : validatePerformColorAnalysisOutput rawC = [])
    (ocA : Nat → CallOutcome RawClothingOutput)
    (hA0 : ocA 0 = .failure m1) (hA1 : ocA 1 = .failure m2) (hA2 : ocA 2 = .success (some rawA))
    (ocC : Nat → CallOutcome PerformColorAnalysisOutput)
    (hC0 : ocC 0 = .failure m1) (hC1 : ocC 1 = .failure m2) (hC2 : ocC 2 = .success (some rawC)) :
    analyzeClothingItemFlow ocA =
      { result := .ok rawA, calls := 3, delays := [2000, 4000], fellThrough := false } ∧
    performColorAnalysisFlow ocC =
      { result := .ok rawC, calls := 3, delays := [2000, 4000], fellThrough := false } := by
  have hr1 : isRetryableMessage m1 = true := isRetryableMessage_of_rate_limit m1 h1
  have hr2 : isRetryableMessage m2 = true := isRetryableMessage_of_rate_limit m2 h2
  constructor
  · have e2 : analyzeClothingItemGo ocA 1 2 8000 =
        { result := .ok rawA, calls := 1, delays := [], fellThrough := false } :=
      analyzeClothingItemGo_step_ok ocA 0 2 8000 rawA
        (by rw [hA2]; exact clothingAttemptStep_ok rawA hvA)
    have e1 : analyzeClothingItemGo ocA 2 1 4000 =
        { result := (analyzeClothingItemGo ocA 1 2 8000).result
          calls := (analyzeClothingItemGo ocA 1 2 8000).calls + 1
          delays := 4000 :: (analyzeClothingItemGo ocA 1 2 8000).delays
          fellThrough := (analyzeClothingItemGo ocA 1 2 8000).fellThrough } :=
      analyzeClothingItemGo_step_retry ocA 1 1 4000 m2 (by rw [hA1]; rfl) hr2 (by omega)
    have e0 : analyzeClothingItemFlow ocA =
        { result := (analyzeClothingItemGo ocA 2 1 4000).result
          calls := (analyzeClothingItemGo ocA 2 1 4000).calls + 1
          delays := 2000 :: (analyzeClothingItemGo ocA 2 1 4000).delays
          fellThrough := (analyzeClothingItemGo ocA 2 1 4000).fellThrough } :=
      analyzeClothingItemGo_step_retry ocA 2 0 2000 m1 (by rw [hA0]; rfl) hr1 (by omega)
    rw [e0, e1, e2]
  · have e2 : performColorAnalysisGo ocC 1 2 8000 =
        { result := .ok rawC, calls := 1, delays := [], fellThrough := false } :=
      performColorAnalysisGo_step_ok ocC 0 2 8000 rawC
        (by rw [hC2]; exact colorAttemptStep_ok_of_determined rawC hdetC hvC)
    have e1 : performColorAnalysisGo ocC 2 1 4000 =
        { result := (performColorAnalysisGo ocC 1 2 8000).result
          calls := (performColorAnalysisGo ocC 1 2 8000).calls + 1
          delays := 4000 :: (performColorAnalysisGo ocC 1 2 8000).delays
          fellThrough := (performColorAnalysisGo ocC 1 2 8000).fellThrough } :=
      performColorAnalysisGo_step_retry ocC 1 1 4000 m2 (by rw [hC1]; rfl) hr2 (by omega)
    have e0 : performColorAnalysisFlow ocC =
        { result := (performColorAnalysisGo ocC 2 1 4000).result
          calls := (performColorAnalysisGo ocC 2 1 4000).calls + 1
          delays := 2000 :: (performColorAnalysisGo ocC 2 1 4000).delays
          fellThrough := (performColorAnalysisGo ocC 2 1 4000).fellThrough } :=
      performColorAnalysisGo_step_retry ocC 2 0 2000 m1 (by rw [hC0]; rfl) hr1 (by omega)
    rw [e0, e1, e2]

/-- Witness for C4 at concrete rate-limit messages and valid third outputs. -/
theorem c4_witness :
    strIncludes (jsToLower "Rate limit hit") "rate limit" = true ∧
    analyzeClothingItemFlow
      (fun i => if i = 0 then .failure "rate limit" else if i = 1 then .failure "Rate limit hit"
        else .success (some
          { itemName := some "Zwarte jas", itemType := some "Jas", itemColor := some "Zwart"
            itemStyle := some "Casual", fullDescription := some "Zwarte casual jas" })) =
      { result := .ok
          { itemName := some "Zwarte jas", itemType := some "Jas", itemColor := some "Zwart"
            itemStyle := some "Casual", fullDescription := some "Zwarte casual jas" }
        calls := 3, delays := [2000, 4000], fellThrough := false } ∧
    performColorAnalysisFlow
      (fun i => if i = 0 then .failure "rate limit" else if i = 1 then .failure "Rate limit hit"
        else .success (some
          { seasonType := "Zomer", analysisDescription := "Koele ondertoon."
            characteristics := { skinTone := "Koel", hairColor := "Asblond", eyeColor := "Grijs" }
            recommendedColors := [], avoidColors := [], paletteDescription := "Gedempte tinten" })) =
      { result := .ok
          { seasonType := "Zomer", analysisDescription := "Koele ondertoon."
            characteristics := { skinTone := "Koel", hairColor := "Asblond", eyeColor := "Grijs" }
            recommendedColors := [], avoidColors := [], paletteDescription := "Gedempte tinten" }
        calls := 3, delays := [2000, 4000], fellThrough := false } := by
  refine ⟨by decide, ?_, ?_⟩
  · exact (c4_rate_limit_retry_three_attempts "rate limit" "Rate limit hit" (by decide) (by decide)
      _ (by decide) _ (by decide) (by decide) _ rfl rfl rfl
      (fun i => if i = 0 then .failure "rate limit" else if i = 1 then .failure "Rate limit hit"
        else .success (some
          { seasonType := "Zomer", analysisDescription := "Koele ondertoon."
            characteristics := { skinTone := "Koel", hairColor := "Asblond", eyeColor := "Grijs" }
            recommendedColors := [], avoidColors := [], paletteDescription := "Gedempte tinten" }))
      rfl rfl rfl).1
  · exact (c4_rate_limit_retry_three_attempts "rate limit" "Rate limit hit" (by decide) (by decide)
      { itemName := some "Zwarte jas", itemType := some "Jas", itemColor := some "Zwart"
        itemStyle := some "Casual", fullDescription := some "Zwarte casual jas" } (by decide)
      _ (by decide) (by decide)
      (fun i => if i = 0 then .failure "rate limit" else if i = 1 then .failure "Rate limit hit"
        else .success (some
          { itemName := some "Zwarte jas", itemType := some "Jas", itemColor := some "Zwart"
            itemStyle := some "Casual", fullDescription := some "Zwarte casual jas" }))
      rfl rfl rfl _ rfl rfl rfl).2

/-- Claim C6: for the retry-enabled flows, whenever the model output of any
attempt fails schema validation, that attempt fails at once (one model
invocation, no backoff delay, no fall-through) with a validation-error
message that contains every violated field path and its reason. -/
theorem c6_validation_error_immediate_and_enumerating
    (remA attA dA : Nat) (ocA : Nat → CallOutcome RawClothingOutput)
    (rawA : RawClothingOutput) (hA : ocA attA = .success (some rawA))
    (hvA : validateAnalyzeClothingItemOutput rawA ≠ [])
    (remC attC dC : Nat) (ocC : Nat → CallOutcome PerformColorAnalysisOutput)
    (rawC : PerformColorAnalysisOutput) (hC : ocC attC = .success (some rawC))
    (hvC : validatePerformColorAnalysisOutput (normalizeColorOutput rawC) ≠ []) :
    analyzeClothingItemGo ocA (remA + 1) attA dA =
      { result := .error (clothingZodErrorMessage (validateAnalyzeClothingItemOutput rawA))
        calls := 1, delays := [], fellThrough := false } ∧
    (∀ p m : String, (p, m) ∈ validateAnalyzeClothingItemOutput rawA →
      strIncludes (clothingZodErrorMessage (validateAnalyzeClothingItemOutput rawA)) p = true ∧
      strIncludes (clothingZodErrorMessage (validateAnalyzeClothingItemOutput rawA)) m = true) ∧
    performColorAnalysisGo ocC (remC + 1) attC dC =
      { result := .error (colorZodErrorMessage (validatePerformColorAnalysisOutput (normalizeColorOutput rawC)))
        calls := 1, delays := [], fellThrough := false } ∧
    (∀ p m : String, (p, m) ∈ validatePerformColorAnalysisOutput (normalizeColorOutput rawC) →
      strIncludes (colorZodErrorMessage (validatePerformColorAnalysisOutput (normalizeColorOutput rawC))) p = true ∧
      strIncludes (colorZodErrorMessage (validatePerformColorAnalysisOutput (normalizeColorOutput rawC))) m = true) := by
  refine ⟨?_, fun p m hm => clothingZodErrorMessage_enumerates _ p m hm, ?_,
    fun p m hm => colorZodErrorMessage_enumerates _ p m hm⟩
  · cases hcase : validateAnalyzeClothingItemOutput rawA with
    | nil => exact absurd hcase hvA
    | cons i rest =>
      have hstep : clothingAttemptStep (ocA attA) = .error (.zodError (i :: rest)) := by
        rw [hA, clothingAttemptStep, hcase]
      exact analyzeClothingItemGo_step_zod ocA remA attA dA (i :: rest) hstep
  · cases hcase : validatePerformColorAnalysisOutput (normalizeColorOutput rawC) with
    | nil => exact absurd hcase hvC
    | cons i rest =>
      have hstep : colorAttemptStep (ocC attC) = .error (.zodError (i :: rest)) := by
        rw [hC]
        simp only [colorAttemptStep]
        rw [hcase]
      exact performColorAnalysisGo_step_zod ocC remC attC dC (i :: rest) hstep

/-- Witness for C6: a clothing output missing `itemName` and a color output
with a malformed hex code each fail on the first attempt with an enumerating
message. -/
theorem c6_witness :
    validateAnalyzeClothingItemOutput
      { itemName := none, itemType := some "T-shirt", itemColor := some "Blauw"
        itemStyle := some "Casual", fullDescription := some "Katoenen T-shirt" } ≠ [] ∧
    analyzeClothingItemGo
      (fun _ => .success (some
        { itemName := none, itemType := some "T-shirt", itemColor := some "Blauw"
          itemStyle := some "Casual", fullDescription := some "Katoenen T-shirt" })) 3 0 2000 =
      { result := .error (clothingZodErrorMessage [("itemName", "Required")])
        calls := 1, delays := [], fellThrough := false } ∧
    strIncludes (clothingZodErrorMessage [("itemName", "Required")]) "itemName" = true ∧
    performColorAnalysisGo
      (fun _ => .success (some
        { seasonType := "Lente", analysisDescription := "Warme ondertoon."
          characteristics := { skinTone := "Warm", hairColor := "Blond", eyeColor := "Blauw" }
          recommendedColors := [{ name := "Rood", hex := "rood" }], avoidColors := []
          paletteDescription := "Warm palet" })) 3 0 2000 =
      { result := .error (colorZodErrorMessage
          [("recommendedColors.0.hex", "Moet een geldige hex-kleurcode zijn (bijv. #FF5733).")])
        calls := 1, delays := [], fellThrough := false } := by
  have h := c6_validation_error_immediate_and_enumerating 2 0 2000
    (fun _ => .success (some
      { itemName := none, itemType := some "T-shirt", itemColor := some "Blauw"
        itemStyle := some "Casual", fullDescription := some "Katoenen T-shirt" }))
    { itemName := none, itemType := some "T-shirt", itemColor := some "Blauw"
      itemStyle := some "Casual", fullDescription := some "Katoenen T-shirt" } rfl (by decide)
    2 0 2000
    (fun _ => .success (some
      { seasonType := "Lente", analysisDescription := "Warme ondertoon."
        characteristics := { skinTone := "Warm", hairColor := "Blond", eyeColor := "Blauw" }
        recommendedColors := [{ name := "Rood", hex := "rood" }], avoidColors := []
        paletteDescription := "Warm palet" }))
    { seasonType := "Lente", analysisDescription := "Warme ondertoon."
      characteristics := { skinTone := "Warm", hairColor := "Blond", eyeColor := "Blauw" }
      recommendedColors := [{ name := "Rood", hex := "rood" }], avoidColors := []
      paletteDescription := "Warm palet" } rfl (by decide)
  exact ⟨by decide, h.1, (h.2.1 "itemName" "Required" (by decide)).1, h.2.2.1⟩

/-- Claim C1 counterexample: "rate limit" is a retryable message, yet the
outfit-inspiration, outfit-suggestion and outfit-visualization flows all
propagate such a failure to the caller after a single model invocation:
those three flows do not go through the retry/backoff wrapper. -/
theorem c1_counterexample :
    isRetryableMessage "rate limit" = true ∧
    generateOutfitInspirationFlow (.failure "rate limit") =
      { result := .error "rate limit", calls := 1 } ∧
    generateOutfitSuggestionFlow (.failure "rate limit") (.success (some "data:image/png;base64,AAAA")) =
      { result := .error "rate limit", textCalls := 1, imageCalls := 0 } ∧
    (generateOutfitVisualizationFlow { description := "outfit", items := none } (.failure "rate limit")).result =
      .error "rate limit" ∧
    (generateOutfitVisualizationFlow { description := "outfit", items := none } (.failure "rate limit")).calls = 1 := by
  exact ⟨by decide, by decide, by decide, rfl, rfl⟩

/-- Claim C1 (amended): only the clothing-analysis and color-analysis flows
invoke the model through the retry/backoff wrapper — for those two, a
retryable failure on the first attempt leads to a 2000-unit suspension and a
second invocation; the outfit-suggestion, outfit-inspiration and
outfit-visualization flows invoke the model directly, so the same failure
propagates to the caller after exactly one invocation. -/
theorem c1_amended_retry_only_in_two_flows (msg : String)
    (h : isRetryableMessage msg = true)
    (ocA : Nat → CallOutcome RawClothingOutput) (hA : ocA 0 = .failure msg)
    (ocC : Nat → CallOutcome PerformColorAnalysisOutput) (hC : ocC 0 = .failure msg)
    (img : CallOutcome String) (input : GenerateOutfitVisualizationInput) :
    2 ≤ (analyzeClothingItemFlow ocA).calls ∧
    (analyzeClothingItemFlow ocA).delays.take 1 = [2000] ∧
    2 ≤ (performColorAnalysisFlow ocC).calls ∧
    (performColorAnalysisFlow ocC).delays.take 1 = [2000] ∧
    generateOutfitInspirationFlow (.failure msg) = { result := .error msg, calls := 1 } ∧
    generateOutfitSuggestionFlow (.failure msg) img =
      { result := .error msg, textCalls := 1, imageCalls := 0 } ∧
    (generateOutfitVisualizationFlow input (.failure msg)).result = .error msg ∧
    (generateOutfitVisualizationFlow input (.failure msg)).calls = 1 := by
  have eA : analyzeClothingItemFlow ocA =
      { result := (analyzeClothingItemGo ocA 2 1 4000).result
        calls := (analyzeClothingItemGo ocA 2 1 4000).calls + 1
        delays := 2000 :: (analyzeClothingItemGo ocA 2 1 4000).delays
        fellThrough := (analyzeClothingItemGo ocA 2 1 4000).fellThrough } :=
    analyzeClothingItemGo_step_retry ocA 2 0 2000 msg (by rw [hA]; rfl) h (by omega)
  have eC : performColorAnalysisFlow ocC =
      { result := (performColorAnalysisGo ocC 2 1 4000).result
        calls := (performColorAnalysisGo ocC 2 1 4000).calls + 1
        delays := 2000 :: (performColorAnalysisGo ocC 2 1 4000).delays
        fellThrough := (performColorAnalysisGo ocC 2 1 4000).fellThrough } :=
    performColorAnalysisGo_step_retry ocC 2 0 2000 msg (by rw [hC]; rfl) h (by omega)
  have hposA : 1 ≤ (analyzeClothingItemGo ocA 2 1 4000).calls :=
    analyzeClothingItemGo_calls_pos ocA 1 1 4000
  have hposC : 1 ≤ (performColorAnalysisGo ocC 2 1 4000).calls :=
    performColorAnalysisGo_calls_pos ocC 1 1 4000
  refine ⟨?_, ?_, ?_, ?_, rfl, rfl, ?_, ?_⟩
  · rw [eA]; simpa using Nat.add_le_add_right hposA 1
  · rw [eA]; rfl
  · rw [eC]; simpa using Nat.add_le_add_right hposC 1
  · rw [eC]; rfl
  · rw [generateOutfitVisualizationFlow.eq_def]
  · rw [generateOutfitVisualizationFlow.eq_def]

/-- Witness for the amended C1 at the message "rate limit". -/
theorem c1_amended_witness :
    isRetryableMessage "rate limit" = true ∧
    2 ≤ (analyzeClothingItemFlow (fun _ => .failure "rate limit")).calls ∧
    generateOutfitInspirationFlow (.failure "rate limit") =
      { result := .error "rate limit", calls := 1 } :=
  ⟨by decide,
   (c1_amended_retry_only_in_two_flows "rate limit" (by decide)
      (fun _ => .failure "rate limit") rfl (fun _ => .failure "rate limit") rfl
      (.success none) { description := "outfit", items := none }).1,
   (c1_amended_retry_only_in_two_flows "rate limit" (by decide)
      (fun _ => .failure "rate limit") rfl (fun _ => .failure "rate limit") rfl
      (.success none) { description := "outfit", items := none }).2.2.2.2.1⟩

/-- Claim C7: for every sequence of model-call outcomes, each retry-enabled
flow invokes the model at most 3 times, the delays it sleeps are a prefix of
the strictly doubling sequence 2000, 4000, and the fallback throw placed
after the retry loop is never executed. -/
theorem c7_at_most_three_calls_doubling_delays_no_fallback
    (ocA : Nat → CallOutcome RawClothingOutput)
    (ocC : Nat → CallOutcome PerformColorAnalysisOutput) :
    ((analyzeClothingItemFlow ocA).calls ≤ 3 ∧
     ((analyzeClothingItemFlow ocA).delays = [] ∨
      (analyzeClothingItemFlow ocA).delays = [2000] ∨
      (analyzeClothingItemFlow ocA).delays = [2000, 4000]) ∧
     (analyzeClothingItemFlow ocA).fellThrough = false) ∧
    ((performColorAnalysisFlow ocC).calls ≤ 3 ∧
     ((performColorAnalysisFlow ocC).delays = [] ∨
      (performColorAnalysisFlow ocC).delays = [2000] ∨
      (performColorAnalysisFlow ocC).delays = [2000, 4000]) ∧
     (performColorAnalysisFlow ocC).fellThrough = false) := by
  refine ⟨⟨?_, ?_, ?_⟩, ⟨?_, ?_, ?_⟩⟩
  · exact analyzeClothingItemGo_calls_le ocA 3 0 2000
  · exact analyzeClothingItemGo_delays_zero ocA 3 2000
  · exact analyzeClothingItemGo_no_fallthrough ocA 3 0 2000 (by omega) (by omega)
  · exact performColorAnalysisGo_calls_le ocC 3 0 2000
  · exact performColorAnalysisGo_delays_zero ocC 3 2000
  · exact performColorAnalysisGo_no_fallthrough ocC 3 0 2000 (by omega) (by omega)

end ColorME2
